import Mathlib

/-!
Shallow embedding of the per-frame hand-detection logic of
`example/src/App.tsx` from the react-native-fast-tflite example app,
together with proofs of its stated behavioural properties.

Numeric values (model scores, landmark coordinates) are modelled as
rationals, timestamps as integers; the JavaScript thresholds `0.2` and
`0.5` become the exact rationals `2/10` and `5/10`, and the dwell bound
`1000` ms is the integer `1000`.
-/

namespace HandApp

/-- The value handed to `updateLandmarks` from the worklet: either a
JavaScript array of numbers, or some value that is not an array
(rejected by the `Array.isArray` guard). -/
inductive LandmarkArg where
  | arr (xs : List ℚ)
  | nonArray

/-- The `for` loop of `updateLandmarks` (App.tsx lines 90-101): walk the
flat array in steps of three, pushing a 2-D point `(x, y)` whenever the
element after the current one exists; the third element of each triple
(the z coordinate) is skipped. -/
def buildPoints : List ℚ → List (ℚ × ℚ)
  | x :: y :: _ :: rest => (x, y) :: buildPoints rest
  | [x, y] => [(x, y)]
  | _ => []

/-- `updateLandmarks` (App.tsx lines 78-103): a non-array or empty input
clears the point list; otherwise the flat array is walked in triples to
produce the 2-D points that become the new landmark point list. -/
def updateLandmarks : LandmarkArg → List (ℚ × ℚ)
  | .nonArray => []
  | .arr xs => if xs.length = 0 then [] else buildPoints xs

/-- The mutable state touched by one frame-processor invocation: the two
refs `handDetectedStart` and `photoLogged`, and the two UI states
`handednessLabel` and `landmarkPoints`. -/
structure AppState where
  handDetectedStart : Option ℤ
  photoLogged : Bool
  handednessLabel : String
  landmarkPoints : List (ℚ × ℚ)
deriving DecidableEq, Repr

/-- The inputs one frame-processor invocation reads: whether
`actualModel` is non-null, the flat landmark values extracted by
`Object.values(result[0])`, the optional slots `result[1]?.[0]` and
`result[2]?.[0]`, and the value of `Date.now()`. -/
structure FrameEvent where
  modelLoaded : Bool
  landmarkObject : List ℚ
  presenceSlot : Option ℚ
  handednessSlot : Option ℚ
  now : ℤ
deriving DecidableEq, Repr

/-- Initial values of the refs and states (App.tsx lines 53-61). -/
def initialState : AppState :=
  { handDetectedStart := none, photoLogged := false,
    handednessLabel := "Detecting...", landmarkPoints := [] }

/-- The state written by the below-threshold branch
(App.tsx lines 167-173). -/
def noHandState : AppState :=
  { handDetectedStart := none, photoLogged := false,
    handednessLabel := "No Hand Detected", landmarkPoints := [] }

/-- The presence threshold `0.2` of App.tsx line 146, as the exact
rational 2/10 (written with `Rat.divInt` so that the kernel can
evaluate comparisons against it). -/
def presenceThreshold : ℚ := Rat.divInt 2 10

/-- The handedness threshold `0.5` of App.tsx line 156, as the exact
rational 5/10. -/
def handednessThreshold : ℚ := Rat.divInt 5 10

/-- The hand-detection timer block (App.tsx lines 148-153): given the
current `handDetectedStart` ref, `photoLogged` ref and `now`, return the
new ref values and whether the one-time log side effect fired. -/
def dwellStep (start : Option ℤ) (logged : Bool) (now : ℤ) :
    Option ℤ × Bool × Bool :=
  match start with
  | none => (some now, logged, false)
  | some t0 =>
    if logged = false ∧ now - t0 > 1000 then (some t0, true, true)
    else (some t0, logged, false)

/-- The handedness label (App.tsx line 156). -/
def handednessLabelOf (handedness : ℚ) : String :=
  if handedness > handednessThreshold then "Right Hand" else "Left Hand"

/-- One invocation of the frame processor (App.tsx lines 110-176):
returns the new state and whether the one-time dwell side effect fired
on this frame. -/
def processFrame (s : AppState) (e : FrameEvent) : AppState × Bool :=
  if e.modelLoaded = false then (s, false)
  else
    if e.presenceSlot.getD 0 ≥ presenceThreshold then
      let d := dwellStep s.handDetectedStart s.photoLogged e.now
      ({ handDetectedStart := d.1, photoLogged := d.2.1,
         handednessLabel := handednessLabelOf (e.handednessSlot.getD 0),
         landmarkPoints := updateLandmarks (.arr e.landmarkObject) },
       d.2.2)
    else (noHandState, false)

/-- Process a sequence of frames, counting how many of them fired the
one-time dwell side effect. -/
def runFrames : AppState → List FrameEvent → AppState × ℕ
  | s, [] => (s, 0)
  | s, e :: es =>
    let r := processFrame s e
    let rest := runFrames r.1 es
    (rest.1, (if r.2 then 1 else 0) + rest.2)

/-- `SQUARE_SIZE` (App.tsx line 27), parameterised by the screen
dimensions read from `Dimensions.get`. -/
def SQUARE_SIZE (screenWidth screenHeight : ℚ) : ℚ :=
  min screenWidth screenHeight

/-- Width of `styles.landmarkDot` (App.tsx line 288). -/
def landmarkDotWidth : ℚ := 8

/-- Height of `styles.landmarkDot` (App.tsx line 289). -/
def landmarkDotHeight : ℚ := 8

/-- The overlay rendering of the landmark point list (App.tsx lines
224-247): each point is scaled from the 224-by-224 model space to the
square camera view and centred by half the dot size, yielding the
`(left, top)` position of its dot. -/
def renderOverlay (squareSize : ℚ) (pts : List (ℚ × ℚ)) : List (ℚ × ℚ) :=
  pts.map (fun pt =>
    ((pt.1 / 224) * squareSize - landmarkDotWidth / 2,
     (pt.2 / 224) * squareSize - landmarkDotHeight / 2))

/-- The thresholds denote the source literals 0.2 and 0.5. -/
lemma presenceThreshold_eq : presenceThreshold = 2/10 := by
  simp [presenceThreshold, Rat.divInt_eq_div]

lemma handednessThreshold_eq : handednessThreshold = 5/10 := by
  simp [handednessThreshold, Rat.divInt_eq_div]

example : buildPoints [1, 2, 3, 4, 5, 6] = [(1, 2), (4, 5)] := by decide
example : buildPoints [1, 2, 3, 4, 5] = [(1, 2), (4, 5)] := by decide
example : buildPoints [1, 2, 3, 4] = [(1, 2)] := by decide
example : buildPoints [1] = [] := by decide
example : updateLandmarks (.arr []) = [] := by decide
example :
    (processFrame initialState
      { modelLoaded := true, landmarkObject := [], presenceSlot := some 1,
        handednessSlot := some 1, now := 0 }).2 = false := by decide

/-- Induction principle matching the shape of the triple-stepping loop
of `buildPoints`. -/
lemma tripleInduction {P : List ℚ → Prop} (h0 : P []) (h1 : ∀ x, P [x])
    (h2 : ∀ x y, P [x, y])
    (h3 : ∀ x y z rest, P rest → P (x :: y :: z :: rest)) :
    ∀ xs, P xs
  | [] => h0
  | [x] => h1 x
  | [x, y] => h2 x y
  | x :: y :: z :: rest =>
      h3 x y z rest (tripleInduction h0 h1 h2 h3 rest)

lemma buildPoints_nil : buildPoints [] = [] := rfl

lemma buildPoints_single (x : ℚ) : buildPoints [x] = [] := rfl

lemma buildPoints_pair (x y : ℚ) : buildPoints [x, y] = [(x, y)] := rfl

lemma buildPoints_cons3 (x y z : ℚ) (rest : List ℚ) :
    buildPoints (x :: y :: z :: rest) = (x, y) :: buildPoints rest := rfl

/-- The loop emits one point per complete or 2-element-remainder
triple: the output length is `(n + 1) / 3` for an input of length `n`. -/
lemma buildPoints_length (xs : List ℚ) :
    (buildPoints xs).length = (xs.length + 1) / 3 := by
  induction xs using tripleInduction with
  | h0 => simp [buildPoints_nil]
  | h1 x => simp [buildPoints_single]
  | h2 x y => simp [buildPoints_pair]
  | h3 x y z rest ih =>
    simp only [buildPoints_cons3, List.length_cons, ih]
    omega

/-- Point `k` of the loop output takes its x from element `3k` and its
y from element `3k + 1` of the input. -/
lemma buildPoints_getD (xs : List ℚ) :
    ∀ k : ℕ, 3 * k + 1 < xs.length →
      (buildPoints xs).getD k (0, 0) =
        (xs.getD (3 * k) 0, xs.getD (3 * k + 1) 0) := by
  induction xs using tripleInduction with
  | h0 => intro k hk; simp at hk
  | h1 x => intro k hk; simp at hk
  | h2 x y =>
    intro k hk
    simp only [List.length_cons, List.length_nil] at hk
    have hk0 : k = 0 := by omega
    subst hk0
    simp [buildPoints_pair]
  | h3 x y z rest ih =>
    intro k hk
    match k with
    | 0 => simp [buildPoints_cons3]
    | Nat.succ k =>
      have h3k : 3 * (k + 1) = 3 * k + 1 + 1 + 1 := by ring
      have h3k1 : 3 * (k + 1) + 1 = 3 * k + 1 + 1 + 1 + 1 := by ring
      simp only [List.length_cons] at hk
      have hk' : 3 * k + 1 < rest.length := by omega
      simp only [buildPoints_cons3, List.getD_cons_succ, h3k, h3k1]
      exact ih k hk'

/-- Each valid index of the loop output corresponds exactly to a pair
of in-range input indices `3k`, `3k + 1`. -/
lemma buildPoints_length_iff (xs : List ℚ) (k : ℕ) :
    k < (buildPoints xs).length ↔ 3 * k + 1 < xs.length := by
  rw [buildPoints_length]
  omega

lemma processFrame_skip (s : AppState) (e : FrameEvent)
    (h : e.modelLoaded = false) : processFrame s e = (s, false) := by
  simp [processFrame, h]

lemma processFrame_noHand (s : AppState) (e : FrameEvent)
    (hm : e.modelLoaded = true)
    (hp : ¬ e.presenceSlot.getD 0 ≥ presenceThreshold) :
    processFrame s e = (noHandState, false) := by
  simp [processFrame, hm, hp]

lemma processFrame_present (s : AppState) (e : FrameEvent)
    (hm : e.modelLoaded = true)
    (hp : e.presenceSlot.getD 0 ≥ presenceThreshold) :
    processFrame s e =
      ({ handDetectedStart :=
           (dwellStep s.handDetectedStart s.photoLogged e.now).1,
         photoLogged :=
           (dwellStep s.handDetectedStart s.photoLogged e.now).2.1,
         handednessLabel := handednessLabelOf (e.handednessSlot.getD 0),
         landmarkPoints := updateLandmarks (.arr e.landmarkObject) },
       (dwellStep s.handDetectedStart s.photoLogged e.now).2.2) := by
  simp [processFrame, hm, hp]

lemma dwellStep_start_none (logged : Bool) (now : ℤ) :
    dwellStep none logged now = (some now, logged, false) := rfl

lemma dwellStep_some_fire (t0 : ℤ) (logged : Bool) (now : ℤ)
    (h : logged = false ∧ now - t0 > 1000) :
    dwellStep (some t0) logged now = (some t0, true, true) := by
  simp only [dwellStep]
  rw [if_pos h]

lemma dwellStep_some_nofire (t0 : ℤ) (logged : Bool) (now : ℤ)
    (h : ¬(logged = false ∧ now - t0 > 1000)) :
    dwellStep (some t0) logged now = (some t0, logged, false) := by
  simp only [dwellStep]
  rw [if_neg h]

/-- If the one-time side effect fired, the timer block was in the
armed state: a start timestamp was recorded, the flag was clear, and
strictly more than 1000 ms elapsed; and the flag is set afterwards. -/
lemma dwellStep_fired (start : Option ℤ) (logged : Bool) (now : ℤ)
    (h : (dwellStep start logged now).2.2 = true) :
    (dwellStep start logged now).2.1 = true ∧ logged = false ∧
      ∃ t0, start = some t0 ∧ now - t0 > 1000 := by
  cases start with
  | none => simp [dwellStep_start_none] at h
  | some t0 =>
    by_cases hc : logged = false ∧ now - t0 > 1000
    · rw [dwellStep_some_fire t0 logged now hc]
      exact ⟨rfl, hc.1, t0, rfl, hc.2⟩
    · rw [dwellStep_some_nofire t0 logged now hc] at h
      simp at h

/-- A set flag stays set through the timer block, and blocks firing. -/
lemma dwellStep_logged (start : Option ℤ) (now : ℤ) :
    (dwellStep start true now).2.1 = true ∧
      (dwellStep start true now).2.2 = false := by
  cases start with
  | none => simp [dwellStep_start_none]
  | some t0 =>
    rw [dwellStep_some_nofire t0 true now (by simp)]
    exact ⟨rfl, rfl⟩

lemma runFrames_nil (s : AppState) : runFrames s [] = (s, 0) := rfl

lemma runFrames_cons (s : AppState) (e : FrameEvent) (es : List FrameEvent) :
    runFrames s (e :: es) =
      ((runFrames (processFrame s e).1 es).1,
       (if (processFrame s e).2 then 1 else 0) +
         (runFrames (processFrame s e).1 es).2) := rfl

/-- Characterisation of a firing frame: the model was loaded, presence
was at or above threshold, the flag was clear, a start timestamp
`t0` with `now - t0 > 1000` was recorded, and the flag is set in the
resulting state. -/
lemma processFrame_fired (s : AppState) (e : FrameEvent)
    (h : (processFrame s e).2 = true) :
    e.modelLoaded = true ∧
      e.presenceSlot.getD 0 ≥ presenceThreshold ∧
      s.photoLogged = false ∧
      (processFrame s e).1.photoLogged = true ∧
      ∃ t0, s.handDetectedStart = some t0 ∧ e.now - t0 > 1000 := by
  cases hm : e.modelLoaded with
  | false => rw [processFrame_skip s e hm] at h; simp at h
  | true =>
    by_cases hp : e.presenceSlot.getD 0 ≥ presenceThreshold
    · rw [processFrame_present s e hm hp] at h ⊢
      have hd := dwellStep_fired s.handDetectedStart s.photoLogged e.now h
      exact ⟨rfl, hp, hd.2.1, hd.1, hd.2.2⟩
    · rw [processFrame_noHand s e hm hp] at h
      simp [noHandState] at h

/-- Once the flag is set, an in-episode frame keeps it set and cannot
fire. -/
lemma processFrame_logged_persists (s : AppState) (e : FrameEvent)
    (hl : s.photoLogged = true)
    (hm : e.modelLoaded = true)
    (hp : e.presenceSlot.getD 0 ≥ presenceThreshold) :
    (processFrame s e).1.photoLogged = true ∧
      (processFrame s e).2 = false := by
  rw [processFrame_present s e hm hp]
  rw [hl]
  exact dwellStep_logged s.handDetectedStart e.now

/-- While the flag is set and presence stays at or above threshold,
no further fire ever happens. -/
lemma runFrames_logged_zero (es : List FrameEvent) : ∀ s : AppState,
    s.photoLogged = true →
    (∀ e ∈ es, e.modelLoaded = true ∧
      e.presenceSlot.getD 0 ≥ presenceThreshold) →
    (runFrames s es).2 = 0 := by
  induction es with
  | nil => intro s _ _; rfl
  | cons e es ih =>
    intro s hl hes
    have he := hes e (List.mem_cons_self e es)
    have hstep := processFrame_logged_persists s e hl he.1 he.2
    rw [runFrames_cons, hstep.2]
    simpa using ih (processFrame s e).1 hstep.1
      (fun x hx => hes x (List.mem_cons_of_mem e hx))

/-- Within one continuous presence episode the side effect fires at
most once. -/
lemma runFrames_count_le_one (es : List FrameEvent) : ∀ s : AppState,
    (∀ e ∈ es, e.modelLoaded = true ∧
      e.presenceSlot.getD 0 ≥ presenceThreshold) →
    (runFrames s es).2 ≤ 1 := by
  induction es with
  | nil => intro s _; simp [runFrames_nil]
  | cons e es ih =>
    intro s hes
    rw [runFrames_cons]
    cases hr : (processFrame s e).2 with
    | false =>
      simpa using ih (processFrame s e).1
        (fun x hx => hes x (List.mem_cons_of_mem e hx))
    | true =>
      have hc := processFrame_fired s e hr
      have hz := runFrames_logged_zero es (processFrame s e).1 hc.2.2.2.1
        (fun x hx => hes x (List.mem_cons_of_mem e hx))
      rw [hz]
      simp

/-- A frame event inside a presence episode, used as concrete input. -/
def episodeEvent (t : ℤ) : FrameEvent :=
  { modelLoaded := true, landmarkObject := [], presenceSlot := some 1,
    handednessSlot := some 1, now := t }

/-- A frame event with presence score zero, used as concrete input. -/
def lowPresenceEvent : FrameEvent :=
  { modelLoaded := true, landmarkObject := [3, 4, 5],
    presenceSlot := some 0, handednessSlot := some 1, now := 7 }

/-- A frame event whose handedness score sits exactly on the 0.5
boundary, used as concrete input. -/
def boundaryEvent : FrameEvent :=
  { modelLoaded := true, landmarkObject := [], presenceSlot := some 1,
    handednessSlot := some (Rat.divInt 5 10), now := 0 }

/-- A frame event with a missing presence slot, used as concrete
input. -/
def missingPresenceEvent : FrameEvent :=
  { modelLoaded := true, landmarkObject := [1, 2, 3],
    presenceSlot := none, handednessSlot := some 1, now := 5 }

/-- A frame event arriving before the model finished loading, used as
concrete input. -/
def notLoadedEvent : FrameEvent :=
  { modelLoaded := false, landmarkObject := [9], presenceSlot := some 1,
    handednessSlot := some 0, now := 99 }

/-- A non-initial state, used as concrete input. -/
def someState : AppState :=
  { handDetectedStart := some 11, photoLogged := true,
    handednessLabel := "Right Hand", landmarkPoints := [(1, 2)] }

/-- C1: the dwell trigger fires at most once per continuous presence
episode: it fires only when presence is at or above 0.2, the logged
flag is clear, and strictly more than 1000 ms elapsed since the
recorded presence start; any frame with presence below 0.2 resets both
the start timestamp and the flag; and over any frame sequence that
stays at or above the threshold the trigger fires at most once. -/
theorem dwell_trigger_once_per_episode :
    (∀ (s : AppState) (e : FrameEvent), (processFrame s e).2 = true →
      e.presenceSlot.getD 0 ≥ presenceThreshold ∧
      s.photoLogged = false ∧
      (processFrame s e).1.photoLogged = true ∧
      ∃ t0, s.handDetectedStart = some t0 ∧ e.now - t0 > 1000) ∧
    (∀ (s : AppState) (e : FrameEvent),
      e.modelLoaded = true →
      e.presenceSlot.getD 0 < presenceThreshold →
      (processFrame s e).1.handDetectedStart = none ∧
      (processFrame s e).1.photoLogged = false) ∧
    (∀ (s : AppState) (es : List FrameEvent),
      (∀ e ∈ es, e.modelLoaded = true ∧
        e.presenceSlot.getD 0 ≥ presenceThreshold) →
      (runFrames s es).2 ≤ 1) := by
  refine ⟨?_, ?_, ?_⟩
  · intro s e h
    have hc := processFrame_fired s e h
    exact ⟨hc.2.1, hc.2.2.1, hc.2.2.2.1, hc.2.2.2.2⟩
  · intro s e hm hp
    rw [processFrame_noHand s e hm (not_le.mpr hp)]
    exact ⟨rfl, rfl⟩
  · intro s es h
    exact runFrames_count_le_one es s h

theorem dwell_trigger_once_per_episode_witness :
    (runFrames initialState
      [episodeEvent 0, episodeEvent 2000, episodeEvent 4000]).2 ≤ 1 :=
  dwell_trigger_once_per_episode.2.2 initialState
    [episodeEvent 0, episodeEvent 2000, episodeEvent 4000] (by decide)

/-- C2: on a frame with presence below 0.2 the label becomes the
no-hand state and the point list becomes empty; the whole resulting
state is the fixed reset state, independent of the handedness score
and of the landmark values. -/
theorem low_presence_clears_ui (s : AppState) (e : FrameEvent)
    (hm : e.modelLoaded = true)
    (hp : e.presenceSlot.getD 0 < presenceThreshold) :
    (processFrame s e).1.handednessLabel = "No Hand Detected" ∧
    (processFrame s e).1.landmarkPoints = [] ∧
    processFrame s e = (noHandState, false) := by
  rw [processFrame_noHand s e hm (not_le.mpr hp)]
  exact ⟨rfl, rfl, rfl⟩

theorem low_presence_clears_ui_witness :
    lowPresenceEvent.modelLoaded = true ∧
    lowPresenceEvent.presenceSlot.getD 0 < presenceThreshold ∧
    (processFrame someState lowPresenceEvent).1.handednessLabel =
      "No Hand Detected" ∧
    (processFrame someState lowPresenceEvent).1.landmarkPoints = [] ∧
    processFrame someState lowPresenceEvent = (noHandState, false) :=
  ⟨rfl, by decide,
   low_presence_clears_ui someState lowPresenceEvent rfl (by decide)⟩

/-- C3: on a frame with presence at or above 0.2 the label is the
deterministic image of the handedness score, flipping exactly at the
0.5 boundary: strictly above 0.5 gives the right-hand label, at or
below 0.5 (in particular exactly 0.5) gives the left-hand label. -/
theorem handedness_label_boundary (s : AppState) (e : FrameEvent)
    (hm : e.modelLoaded = true)
    (hp : e.presenceSlot.getD 0 ≥ presenceThreshold) :
    (processFrame s e).1.handednessLabel =
      handednessLabelOf (e.handednessSlot.getD 0) ∧
    (e.handednessSlot.getD 0 > handednessThreshold →
      (processFrame s e).1.handednessLabel = "Right Hand") ∧
    (e.handednessSlot.getD 0 ≤ handednessThreshold →
      (processFrame s e).1.handednessLabel = "Left Hand") ∧
    (e.handednessSlot.getD 0 = handednessThreshold →
      (processFrame s e).1.handednessLabel = "Left Hand") := by
  rw [processFrame_present s e hm hp]
  refine ⟨rfl, ?_, ?_, ?_⟩
  · intro h; simp [handednessLabelOf, h]
  · intro h; simp [handednessLabelOf, not_lt.mpr h]
  · intro h; simp [handednessLabelOf, h]

theorem handedness_label_boundary_witness :
    boundaryEvent.modelLoaded = true ∧
    boundaryEvent.presenceSlot.getD 0 ≥ presenceThreshold ∧
    boundaryEvent.handednessSlot.getD 0 = handednessThreshold ∧
    (processFrame initialState boundaryEvent).1.handednessLabel =
      "Left Hand" :=
  ⟨rfl, by decide, by decide,
   (handedness_label_boundary initialState boundaryEvent rfl
     (by decide)).2.2.2 (by decide)⟩

/-- C4: a flat array of exactly 63 values yields exactly 21 points,
point `k` taking its x from element `3k` and its y from element
`3k + 1`; the z components at indices `3k + 2` never appear. -/
theorem updateLandmarks_63_values (xs : List ℚ) (h : xs.length = 63) :
    (updateLandmarks (.arr xs)).length = 21 ∧
    ∀ k : ℕ, k < 21 →
      (updateLandmarks (.arr xs)).getD k (0, 0) =
        (xs.getD (3 * k) 0, xs.getD (3 * k + 1) 0) := by
  have hne : ¬ xs.length = 0 := by omega
  have hupd : updateLandmarks (.arr xs) = buildPoints xs := by
    simp [updateLandmarks, hne]
  constructor
  · rw [hupd, buildPoints_length, h]
  · intro k hk
    rw [hupd]
    exact buildPoints_getD xs k (by omega)

theorem updateLandmarks_63_values_witness :
    (List.replicate 63 (0 : ℚ)).length = 63 ∧
    (updateLandmarks (.arr (List.replicate 63 (0 : ℚ)))).length = 21 :=
  ⟨by decide,
   (updateLandmarks_63_values (List.replicate 63 0) (by decide)).1⟩

/-- C5: a missing presence or handedness output slot is treated as the
score 0: the frame behaves exactly as if the slot held 0, and in
particular a missing presence slot takes the below-threshold branch,
producing the reset no-hand state. -/
theorem missing_output_slots_default_zero :
    (∀ (s : AppState) (e : FrameEvent), e.presenceSlot = none →
      processFrame s e =
        processFrame s { e with presenceSlot := some 0 }) ∧
    (∀ (s : AppState) (e : FrameEvent), e.handednessSlot = none →
      processFrame s e =
        processFrame s { e with handednessSlot := some 0 }) ∧
    (∀ (s : AppState) (e : FrameEvent), e.modelLoaded = true →
      e.presenceSlot = none →
      processFrame s e = (noHandState, false)) := by
  refine ⟨?_, ?_, ?_⟩
  · intro s e h
    simp [processFrame, h]
  · intro s e h
    simp [processFrame, h]
  · intro s e hm h
    exact processFrame_noHand s e hm (by rw [h]; decide)

theorem missing_output_slots_default_zero_witness :
    missingPresenceEvent.modelLoaded = true ∧
    missingPresenceEvent.presenceSlot = none ∧
    processFrame someState missingPresenceEvent = (noHandState, false) :=
  ⟨rfl, rfl,
   missing_output_slots_default_zero.2.2 someState missingPresenceEvent
     rfl rfl⟩

/-- C6: every landmark point is displayed at the position obtained by
scaling from the 224-by-224 model space to the square display size
(the minimum of the screen dimensions) and subtracting half the dot
width and half the dot height. -/
theorem overlay_scaling_formula (screenWidth screenHeight : ℚ)
    (pts : List (ℚ × ℚ)) (k : ℕ) (hk : k < pts.length) :
    (renderOverlay (SQUARE_SIZE screenWidth screenHeight) pts).getD
        k (0, 0) =
      (((pts.getD k (0, 0)).1 / 224) * min screenWidth screenHeight -
         landmarkDotWidth / 2,
       ((pts.getD k (0, 0)).2 / 224) * min screenWidth screenHeight -
         landmarkDotHeight / 2) := by
  unfold renderOverlay SQUARE_SIZE
  induction pts generalizing k with
  | nil => simp at hk
  | cons p ps ih =>
    cases k with
    | zero => simp
    | succ k =>
      simp only [List.map_cons, List.getD_cons_succ]
      exact ih k (by simpa using hk)

theorem overlay_scaling_formula_witness :
    0 < ([((112 : ℚ), 56)] : List (ℚ × ℚ)).length ∧
    (renderOverlay (SQUARE_SIZE 300 400) [((112 : ℚ), 56)]).getD
        0 (0, 0) =
      (((([((112 : ℚ), 56)] : List (ℚ × ℚ)).getD 0 (0, 0)).1 / 224) *
         min 300 400 - landmarkDotWidth / 2,
       ((([((112 : ℚ), 56)] : List (ℚ × ℚ)).getD 0 (0, 0)).2 / 224) *
         min 300 400 - landmarkDotHeight / 2) :=
  ⟨by decide,
   overlay_scaling_formula 300 400 [((112 : ℚ), 56)] 0 (by decide)⟩

/-- C7: a frame arriving while the model is not loaded changes
nothing: the resulting state is the previous state unchanged and no
side effect fires. -/
theorem model_not_loaded_skips_frame (s : AppState) (e : FrameEvent)
    (h : e.modelLoaded = false) :
    processFrame s e = (s, false) ∧
    (processFrame s e).1.handDetectedStart = s.handDetectedStart ∧
    (processFrame s e).1.photoLogged = s.photoLogged ∧
    (processFrame s e).1.handednessLabel = s.handednessLabel ∧
    (processFrame s e).1.landmarkPoints = s.landmarkPoints := by
  rw [processFrame_skip s e h]
  exact ⟨rfl, rfl, rfl, rfl, rfl⟩

theorem model_not_loaded_skips_frame_witness :
    notLoadedEvent.modelLoaded = false ∧
    processFrame someState notLoadedEvent = (someState, false) :=
  ⟨rfl, (model_not_loaded_skips_frame someState notLoadedEvent rfl).1⟩

/-- C8: a non-array input or an empty array clears the landmark point
list to the empty list. -/
theorem malformed_landmarks_cleared :
    updateLandmarks .nonArray = [] ∧ updateLandmarks (.arr []) = [] :=
  ⟨rfl, rfl⟩

/-- C9: the dwell trigger can never fire on the first frame of a
presence episode: whenever the start timestamp is empty no fire
happens and the frame only records the timestamp; below-threshold
frames leave the timestamp empty, and it starts out empty. -/
theorem first_episode_frame_never_fires :
    (∀ (s : AppState) (e : FrameEvent), s.handDetectedStart = none →
      (processFrame s e).2 = false) ∧
    (∀ (s : AppState) (e : FrameEvent), s.handDetectedStart = none →
      e.modelLoaded = true →
      e.presenceSlot.getD 0 ≥ presenceThreshold →
      (processFrame s e).1.handDetectedStart = some e.now) ∧
    (∀ (s : AppState) (e : FrameEvent), e.modelLoaded = true →
      e.presenceSlot.getD 0 < presenceThreshold →
      (processFrame s e).1.handDetectedStart = none) ∧
    initialState.handDetectedStart = none := by
  refine ⟨?_, ?_, ?_, rfl⟩
  · intro s e hs
    cases hm : e.modelLoaded with
    | false => rw [processFrame_skip s e hm]
    | true =>
      by_cases hp : e.presenceSlot.getD 0 ≥ presenceThreshold
      · rw [processFrame_present s e hm hp, hs, dwellStep_start_none]
      · rw [processFrame_noHand s e hm hp]
  · intro s e hs hm hp
    rw [processFrame_present s e hm hp, hs, dwellStep_start_none]
  · intro s e hm hp
    rw [processFrame_noHand s e hm (not_le.mpr hp)]
    rfl

theorem first_episode_frame_never_fires_witness :
    initialState.handDetectedStart = none ∧
    (processFrame initialState (episodeEvent 42)).2 = false :=
  ⟨rfl,
   first_episode_frame_never_fires.1 initialState (episodeEvent 42) rfl⟩

/-- C10: for a flat array of any length `n` the flattening produces
one point per index `3k` with `3k + 1 < n`, taking x from element
`3k` and y from element `3k + 1`; a trailing element with no successor
yields no point, so no out-of-range element is ever read. -/
theorem updateLandmarks_arbitrary_length (xs : List ℚ) :
    ((updateLandmarks (.arr xs)).length = (xs.length + 1) / 3) ∧
    (∀ k : ℕ, k < (updateLandmarks (.arr xs)).length ↔
      3 * k + 1 < xs.length) ∧
    (∀ k : ℕ, 3 * k + 1 < xs.length →
      (updateLandmarks (.arr xs)).getD k (0, 0) =
        (xs.getD (3 * k) 0, xs.getD (3 * k + 1) 0)) := by
  have hupd : updateLandmarks (.arr xs) = buildPoints xs := by
    cases xs with
    | nil => rfl
    | cons x xs => simp [updateLandmarks]
  refine ⟨?_, ?_, ?_⟩
  · rw [hupd, buildPoints_length]
  · intro k; rw [hupd]; exact buildPoints_length_iff xs k
  · intro k hk; rw [hupd]; exact buildPoints_getD xs k hk

theorem updateLandmarks_arbitrary_length_witness :
    3 * 0 + 1 < ([1, 2, 3, 4] : List ℚ).length ∧
    (updateLandmarks (.arr [1, 2, 3, 4])).length = 1 ∧
    (updateLandmarks (.arr [1, 2, 3, 4])).getD 0 (0, 0) = (1, 2) := by
  refine ⟨by decide, ?_, ?_⟩
  · exact (updateLandmarks_arbitrary_length [1, 2, 3, 4]).1
  · have h :=
      (updateLandmarks_arbitrary_length [1, 2, 3, 4]).2.2 0 (by decide)
    simpa using h

end HandApp
